import Mathlib

/-!
Shallow embedding of `src/resources/zmk_defines.h` from the keymap-drawer
repository.  The header consists of four C preprocessor `#define` directives:
an object-like placeholder macro and three function-like, variadic macros that
expand to devicetree node fragments.  Macro expansion is modelled as a total
function from the `name` argument and the list of variadic arguments to the
expanded text.  Whitespace runs inside a replacement list are rendered as
single spaces, because a C preprocessor's token stream keeps only token
separation, not the exact amount of whitespace; literal braces are written in
Lean string literals via the escapes `\x7b` and `\x7d`.
-/

/-- Translated from line 1 of `src/resources/zmk_defines.h`:
the object-like directive `&num;define MACRO_PLACEHOLDER 0` (here `&num;`
stands for the hash sign).  Its replacement text is the single token `0`. -/
def MACRO_PLACEHOLDER : Nat := 0

/-- Expansion of `__VA_ARGS__`: the variadic arguments of a function-like
macro call, joined by the comma tokens that separated them at the call site
(rendered as a comma and a space, the way a preprocessor prints its token
stream).  An empty variadic list yields empty text. -/
def VA_ARGS : List String → String
  | [] => ""
  | [a] => a
  | a :: rest => a ++ ", " ++ VA_ARGS rest

/-- Translated from lines 2-7 of `src/resources/zmk_defines.h`: the expansion
of `ZMK_MACRO(name, ...)`, a devicetree node
`name: name \x7b compatible = "zmk,behavior-macro"; 'hash'binding-cells = <0>;
__VA_ARGS__ \x7d;` with the two occurrences of the parameter `name`
substituted and `__VA_ARGS__` replaced by the variadic arguments. -/
def ZMK_MACRO (name : String) (args : List String) : String :=
  name ++ ": " ++ name ++ " \x7b " ++
    "compatible = \"zmk,behavior-macro\"; " ++
    "#binding-cells = <0>; " ++
    VA_ARGS args ++ " \x7d;"

/-- Translated from lines 9-14 of `src/resources/zmk_defines.h`: the expansion
of `ZMK_MACRO1(name, ...)`; same template as ` ZMK_MACRO` except for the
compatible string `"zmk,behavior-macro-one-param"` and the binding-cells
value `<1>`. -/
def ZMK_MACRO1 (name : String) (args : List String) : String :=
  name ++ ": " ++ name ++ " \x7b " ++
    "compatible = \"zmk,behavior-macro-one-param\"; " ++
    "#binding-cells = <1>; " ++
    VA_ARGS args ++ " \x7d;"

/-- Translated from lines 16-21 of `src/resources/zmk_defines.h`: the expansion
of `ZMK_MACRO2(name, ...)`; same template as ` ZMK_MACRO` except for the
compatible string `"zmk,behavior-macro-two-param"` and the binding-cells
value `<2>`. -/
def ZMK_MACRO2 (name : String) (args : List String) : String :=
  name ++ ": " ++ name ++ " \x7b " ++
    "compatible = \"zmk,behavior-macro-two-param\"; " ++
    "#binding-cells = <2>; " ++
    VA_ARGS args ++ " \x7d;"

/-- A C preprocessor `&num;define` directive of the header, as a record:
the defined macro's name, whether it is function-like, its named parameters,
and whether it is variadic (takes `...`). -/
structure CppDefine where
  name : String
  functionLike : Bool
  params : List String
  variadic : Bool
deriving DecidableEq, Repr

/-- Translated from `src/resources/zmk_defines.h` as a whole: the directives
the file contains, in file order (lines 1, 2, 9 and 16). -/
def zmk_defines_file : List CppDefine :=
  [⟨"MACRO_PLACEHOLDER", false, [], false⟩,
   ⟨"ZMK_MACRO", true, ["name"], true⟩,
   ⟨"ZMK_MACRO1", true, ["name"], true⟩,
   ⟨"ZMK_MACRO2", true, ["name"], true⟩]

/-- A single invocation of one of the three function-like macros of the
header: which macro is invoked, its `name` argument, and its variadic
arguments. -/
inductive MacroCall where
  | callZmk (name : String) (args : List String)
  | callZmk1 (name : String) (args : List String)
  | callZmk2 (name : String) (args : List String)

/-- Expansion of a single macro invocation. -/
def expandCall : MacroCall → String
  | .callZmk name args => ZMK_MACRO name args
  | .callZmk1 name args => ZMK_MACRO1 name args
  | .callZmk2 name args => ZMK_MACRO2 name args

/-- Expansion of a sequence of macro invocations, one output fragment per
invocation, in order. -/
def expandList (cs : List MacroCall) : List String :=
  cs.map expandCall

/-- Spec-side: every character of `w` is a space. -/
def Whitespace (w : String) : Prop := ∀ c ∈ w.data, c = ' '

/-- Spec-side, following the spec's description of the external interface:
`s` is a single devicetree node whose label and node name both equal `name`,
whose body consists of the property `compatible = "compat";`, then the
property `&num;binding-cells = <cells>;`, then the text `va`, with only
(possibly empty) runs of spaces between the pieces, and closed by the
brace-semicolon terminator. -/
def IsZmkNode (s name compat : String) (cells : Nat) (va : String) : Prop :=
  ∃ w₁ w₂ w₃ w₄ w₅ w₆ : String,
    Whitespace w₁ ∧ Whitespace w₂ ∧ Whitespace w₃ ∧ Whitespace w₄ ∧
    Whitespace w₅ ∧ Whitespace w₆ ∧
    s = name ++ ":" ++ w₁ ++ name ++ w₂ ++ "\x7b" ++ w₃ ++
      "compatible = \"" ++ compat ++ "\";" ++ w₄ ++
      "#binding-cells = <" ++ Nat.repr cells ++ ">;" ++ w₅ ++
      va ++ w₆ ++ "\x7d;"

/-- Spec-side: the text `s` begins with the text `p`. -/
def BeginsWith (p s : String) : Prop := ∃ t, s = p ++ t

/-- Spec-side: the text `s` ends with the text `t`. -/
def EndsWith (t s : String) : Prop := ∃ p, s = p ++ t

/-- Spec-side: every element of the list occurs verbatim in `s`, in the given
order, each occurrence after the end of the previous one. -/
def ContainsInOrder (s : String) : List String → Prop
  | [] => True
  | p :: ps => ∃ pre post, s = pre ++ p ++ post ∧ ContainsInOrder post ps

/-- Extensionality for strings: equal character data gives equal strings. -/
theorem str_ext (s t : String) (h : s.data = t.data) : s = t := by
  cases s; cases t; exact congrArg String.mk h

theorem whitespace_single : Whitespace " " := by
  intro c hc
  simpa using hc

theorem zmk0_node (name : String) (args : List String) :
    IsZmkNode ( ZMK_MACRO name args) name "zmk,behavior-macro" 0
      ( VA_ARGS args) := by
  refine ⟨" ", " ", " ", " ", " ", " ", whitespace_single, whitespace_single,
    whitespace_single, whitespace_single, whitespace_single, whitespace_single, ?_⟩
  apply str_ext
  simp [ ZMK_MACRO, String.data_append, List.append_assoc,
    show (Nat.repr 0).data = ['0'] from rfl]

theorem zmk1_node (name : String) (args : List String) :
    IsZmkNode ( ZMK_MACRO1 name args) name "zmk,behavior-macro-one-param" 1
      ( VA_ARGS args) := by
  refine ⟨" ", " ", " ", " ", " ", " ", whitespace_single, whitespace_single,
    whitespace_single, whitespace_single, whitespace_single, whitespace_single, ?_⟩
  apply str_ext
  simp [ ZMK_MACRO1, String.data_append, List.append_assoc,
    show (Nat.repr 1).data = ['1'] from rfl]

theorem zmk2_node (name : String) (args : List String) :
    IsZmkNode ( ZMK_MACRO2 name args) name "zmk,behavior-macro-two-param" 2
      ( VA_ARGS args) := by
  refine ⟨" ", " ", " ", " ", " ", " ", whitespace_single, whitespace_single,
    whitespace_single, whitespace_single, whitespace_single, whitespace_single, ?_⟩
  apply str_ext
  simp [ ZMK_MACRO2, String.data_append, List.append_assoc,
    show (Nat.repr 2).data = ['2'] from rfl]

theorem containsInOrder_va (args : List String) :
    ∀ pre post : String, ContainsInOrder (pre ++ VA_ARGS args ++ post) args := by
  induction args with
  | nil =>
    intro pre post
    simp [ContainsInOrder]
  | cons a rest ih =>
    intro pre post
    cases rest with
    | nil =>
      refine ⟨pre, post, rfl, ?_⟩
      simp [ContainsInOrder]
    | cons b bs =>
      refine ⟨pre, ", " ++ VA_ARGS (b :: bs) ++ post, ?_, ?_⟩
      · apply str_ext
        simp [ VA_ARGS, String.data_append, List.append_assoc]
      · exact ih ", " post

/-- C1: for every node name `name` and every variadic argument list, the
expansion of ZMK_MACRO(name, ...) is a devicetree node whose label and node
name both equal `name`, containing the property
`compatible = "zmk,behavior-macro"`, the property with binding-cells value
`<0>`, and then the variadic arguments inside the node body. -/
theorem C1_zero_param_expansion_is_node (name : String) (args : List String) :
    IsZmkNode ( ZMK_MACRO name args) name "zmk,behavior-macro" 0
      ( VA_ARGS args) :=
  zmk0_node name args

/-- C2: for every node name `name` and every variadic argument list, the
expansion of ZMK_MACRO1(name, ...) is a devicetree node whose label and node
name both equal `name`, containing
`compatible = "zmk,behavior-macro-one-param"` and binding-cells value `<1>`,
followed by the variadic arguments inside the node body. -/
theorem C2_one_param_expansion_is_node (name : String) (args : List String) :
    IsZmkNode ( ZMK_MACRO1 name args) name "zmk,behavior-macro-one-param" 1
      ( VA_ARGS args) :=
  zmk1_node name args

/-- C3: for every node name `name` and every variadic argument list, the
expansion of ZMK_MACRO2(name, ...) is a devicetree node whose label and node
name both equal `name`, containing
`compatible = "zmk,behavior-macro-two-param"` and binding-cells value `<2>`,
followed by the variadic arguments inside the node body. -/
theorem C3_two_param_expansion_is_node (name : String) (args : List String) :
    IsZmkNode ( ZMK_MACRO2 name args) name "zmk,behavior-macro-two-param" 2
      ( VA_ARGS args) :=
  zmk2_node name args

/-- C4: for each of the three macros and every name and variadic argument
list, the node body contains the supplied variadic text unmodified (as the
contiguous block ` VA_ARGS args`) and each supplied argument occurs verbatim
in the order it was supplied; nothing is altered, reordered or dropped. -/
theorem C4_variadic_tail_unmodified_in_order (name : String) (args : List String) :
    ((∃ pre post, ZMK_MACRO name args = pre ++ VA_ARGS args ++ post) ∧
      ContainsInOrder ( ZMK_MACRO name args) args) ∧
    ((∃ pre post, ZMK_MACRO1 name args = pre ++ VA_ARGS args ++ post) ∧
      ContainsInOrder ( ZMK_MACRO1 name args) args) ∧
    ((∃ pre post, ZMK_MACRO2 name args = pre ++ VA_ARGS args ++ post) ∧
      ContainsInOrder ( ZMK_MACRO2 name args) args) := by
  refine ⟨⟨⟨name ++ ": " ++ name ++ " \x7b " ++
      "compatible = \"zmk,behavior-macro\"; " ++ "#binding-cells = <0>; ",
      " \x7d;", rfl⟩, ?_⟩,
    ⟨⟨name ++ ": " ++ name ++ " \x7b " ++
      "compatible = \"zmk,behavior-macro-one-param\"; " ++ "#binding-cells = <1>; ",
      " \x7d;", rfl⟩, ?_⟩,
    ⟨⟨name ++ ": " ++ name ++ " \x7b " ++
      "compatible = \"zmk,behavior-macro-two-param\"; " ++ "#binding-cells = <2>; ",
      " \x7d;", rfl⟩, ?_⟩⟩
  · exact containsInOrder_va args (name ++ ": " ++ name ++ " \x7b " ++
      "compatible = \"zmk,behavior-macro\"; " ++ "#binding-cells = <0>; ") " \x7d;"
  · exact containsInOrder_va args (name ++ ": " ++ name ++ " \x7b " ++
      "compatible = \"zmk,behavior-macro-one-param\"; " ++ "#binding-cells = <1>; ") " \x7d;"
  · exact containsInOrder_va args (name ++ ": " ++ name ++ " \x7b " ++
      "compatible = \"zmk,behavior-macro-two-param\"; " ++ "#binding-cells = <2>; ") " \x7d;"

/-- C5: for every name and variadic argument list, the three expansions are
instances of one common template — a shared prefix `P`, middle `M`, suffix `S`
— differing only in the two slots for the compatible string and the
binding-cells digit, and the slot contents pairwise differ. -/
theorem C5_expansions_differ_in_two_slots (name : String) (args : List String) :
    (∃ P M S : String,
      ZMK_MACRO name args = P ++ "zmk,behavior-macro" ++ M ++ "0" ++ S ∧
      ZMK_MACRO1 name args = P ++ "zmk,behavior-macro-one-param" ++ M ++ "1" ++ S ∧
      ZMK_MACRO2 name args = P ++ "zmk,behavior-macro-two-param" ++ M ++ "2" ++ S) ∧
    ("zmk,behavior-macro" : String) ≠ "zmk,behavior-macro-one-param" ∧
    ("zmk,behavior-macro" : String) ≠ "zmk,behavior-macro-two-param" ∧
    ("zmk,behavior-macro-one-param" : String) ≠ "zmk,behavior-macro-two-param" ∧
    ("0" : String) ≠ "1" ∧ ("0" : String) ≠ "2" ∧ ("1" : String) ≠ "2" := by
  refine ⟨⟨name ++ ": " ++ name ++ " \x7b " ++ "compatible = \"",
      "\"; " ++ "#binding-cells = <", ">; " ++ VA_ARGS args ++ " \x7d;",
      ?_, ?_, ?_⟩, by decide, by decide, by decide, by decide, by decide, by decide⟩
  · apply str_ext
    simp [ ZMK_MACRO, String.data_append, List.append_assoc]
  · apply str_ext
    simp [ ZMK_MACRO1, String.data_append, List.append_assoc]
  · apply str_ext
    simp [ ZMK_MACRO2, String.data_append, List.append_assoc]

/-- C6: expansion is total and never fails — for every name (including the
empty or a malformed one) and every variadic argument list, each of the three
expansion functions yields a nonempty text fragment; there is no error result
(the functions return `String`, not an error-carrying type). -/
theorem C6_expansion_total_never_fails (name : String) (args : List String) :
    (0 < ( ZMK_MACRO name args).length ∧
      EndsWith "\x7d;" ( ZMK_MACRO name args)) ∧
    (0 < ( ZMK_MACRO1 name args).length ∧
      EndsWith "\x7d;" ( ZMK_MACRO1 name args)) ∧
    (0 < ( ZMK_MACRO2 name args).length ∧
      EndsWith "\x7d;" ( ZMK_MACRO2 name args)) := by
  refine ⟨⟨?_, name ++ ": " ++ name ++ " \x7b " ++
      "compatible = \"zmk,behavior-macro\"; " ++ "#binding-cells = <0>; " ++
      VA_ARGS args ++ " ", ?_⟩,
    ⟨?_, name ++ ": " ++ name ++ " \x7b " ++
      "compatible = \"zmk,behavior-macro-one-param\"; " ++ "#binding-cells = <1>; " ++
      VA_ARGS args ++ " ", ?_⟩,
    ⟨?_, name ++ ": " ++ name ++ " \x7b " ++
      "compatible = \"zmk,behavior-macro-two-param\"; " ++ "#binding-cells = <2>; " ++
      VA_ARGS args ++ " ", ?_⟩⟩
  · simp [ ZMK_MACRO, String.length_append]
    exact Or.inr (by decide)
  · apply str_ext
    simp [ ZMK_MACRO, String.data_append, List.append_assoc]
  · simp [ ZMK_MACRO1, String.length_append]
    exact Or.inr (by decide)
  · apply str_ext
    simp [ ZMK_MACRO1, String.data_append, List.append_assoc]
  · simp [ ZMK_MACRO2, String.length_append]
    exact Or.inr (by decide)
  · apply str_ext
    simp [ ZMK_MACRO2, String.data_append, List.append_assoc]

/-- C7: expansion is deterministic and independent — in any sequence of
invocations, each invocation's output is exactly the expansion of that
invocation alone, unaffected by the invocations around it, and two
occurrences of the same invocation (same macro, same name, same arguments)
in one sequence produce identical text. -/
theorem C7_expansion_deterministic_independent :
    (∀ (c : MacroCall) (cs ds : List MacroCall),
      expandList (cs ++ c :: ds) =
        expandList cs ++ expandCall c :: expandList ds) ∧
    (∀ (c : MacroCall) (cs ds es : List MacroCall),
      expandList (cs ++ c :: ds ++ c :: es) =
        expandList cs ++ expandCall c ::
          (expandList ds ++ expandCall c :: expandList es)) := by
  constructor
  · intro c cs ds
    simp [expandList]
  · intro c cs ds es
    simp [expandList]

/-- C8 counterexample: the header does not consist of the three ZMK macros
alone — its directive list is not `[ZMK_MACRO, ZMK_MACRO1, ZMK_MACRO2]`,
because line 1 also defines the macro `MACRO_PLACEHOLDER`. -/
theorem C8_counterexample_placeholder_also_defined :
    ¬ ( zmk_defines_file.map CppDefine.name =
        ["ZMK_MACRO", "ZMK_MACRO1", "ZMK_MACRO2"]) ∧
    "MACRO_PLACEHOLDER" ∈ zmk_defines_file.map CppDefine.name := by
  decide

/-- C8 (amended): the file defines exactly four macros, in order
`MACRO_PLACEHOLDER` (object-like) and the three function-like variadic macros
`ZMK_MACRO`, `ZMK_MACRO1`, `ZMK_MACRO2`; the function-like ones are exactly
the three ZMK macros. -/
theorem C8_file_defines_exactly_four_macros :
    zmk_defines_file.map CppDefine.name =
      ["MACRO_PLACEHOLDER", "ZMK_MACRO", "ZMK_MACRO1", "ZMK_MACRO2"] ∧
    ( zmk_defines_file.filter CppDefine.functionLike).map CppDefine.name =
      ["ZMK_MACRO", "ZMK_MACRO1", "ZMK_MACRO2"] ∧
    ( zmk_defines_file.filter fun d => ! d.functionLike).map CppDefine.name =
      ["MACRO_PLACEHOLDER"] := by
  decide

/-- C9: for each of the three macros and every name and variadic argument
list, the expansion begins with the label-and-node header `name: name` plus
the opening brace and ends with the closing brace-semicolon, so every
expansion is a single self-terminated node. -/
theorem C9_expansion_header_and_terminator (name : String) (args : List String) :
    (BeginsWith (name ++ ": " ++ name ++ " \x7b") ( ZMK_MACRO name args) ∧
      EndsWith " \x7d;" ( ZMK_MACRO name args)) ∧
    (BeginsWith (name ++ ": " ++ name ++ " \x7b") ( ZMK_MACRO1 name args) ∧
      EndsWith " \x7d;" ( ZMK_MACRO1 name args)) ∧
    (BeginsWith (name ++ ": " ++ name ++ " \x7b") ( ZMK_MACRO2 name args) ∧
      EndsWith " \x7d;" ( ZMK_MACRO2 name args)) := by
  refine ⟨⟨⟨" " ++ "compatible = \"zmk,behavior-macro\"; " ++
      "#binding-cells = <0>; " ++ VA_ARGS args ++ " \x7d;", ?_⟩,
      ⟨name ++ ": " ++ name ++ " \x7b " ++
        "compatible = \"zmk,behavior-macro\"; " ++ "#binding-cells = <0>; " ++
        VA_ARGS args, ?_⟩⟩,
    ⟨⟨" " ++ "compatible = \"zmk,behavior-macro-one-param\"; " ++
      "#binding-cells = <1>; " ++ VA_ARGS args ++ " \x7d;", ?_⟩,
      ⟨name ++ ": " ++ name ++ " \x7b " ++
        "compatible = \"zmk,behavior-macro-one-param\"; " ++ "#binding-cells = <1>; " ++
        VA_ARGS args, ?_⟩⟩,
    ⟨⟨" " ++ "compatible = \"zmk,behavior-macro-two-param\"; " ++
      "#binding-cells = <2>; " ++ VA_ARGS args ++ " \x7d;", ?_⟩,
      ⟨name ++ ": " ++ name ++ " \x7b " ++
        "compatible = \"zmk,behavior-macro-two-param\"; " ++ "#binding-cells = <2>; " ++
        VA_ARGS args, ?_⟩⟩⟩
  · apply str_ext
    simp [ ZMK_MACRO, String.data_append, List.append_assoc]
  · apply str_ext
    simp [ ZMK_MACRO, String.data_append, List.append_assoc]
  · apply str_ext
    simp [ ZMK_MACRO1, String.data_append, List.append_assoc]
  · apply str_ext
    simp [ ZMK_MACRO1, String.data_append, List.append_assoc]
  · apply str_ext
    simp [ ZMK_MACRO2, String.data_append, List.append_assoc]
  · apply str_ext
    simp [ ZMK_MACRO2, String.data_append, List.append_assoc]

/-- C10: for every name, invoking any of the three macros with an empty
variadic argument list still yields a well-formed node containing exactly the
label/name header, the compatible property and the binding-cells property,
with nothing else (beyond whitespace) in the body. -/
theorem C10_empty_variadic_still_well_formed (name : String) :
    IsZmkNode ( ZMK_MACRO name []) name "zmk,behavior-macro" 0 "" ∧
    IsZmkNode ( ZMK_MACRO1 name []) name "zmk,behavior-macro-one-param" 1 "" ∧
    IsZmkNode ( ZMK_MACRO2 name []) name "zmk,behavior-macro-two-param" 2 "" :=
  ⟨zmk0_node name [], zmk1_node name [], zmk2_node name []⟩
